import Mathlib

/-!
Shallow embedding of the TeraBox premium bot's entitlement, premium,
payment and integrity logic, translated from the repository sources:

* `firebase/user.py`  — Firestore user records, quota counter, daily reset
* `main_bot/premium.py` — premium state check and plan activation
* `payment_bot/plans.py` — plan catalog, discount codes, discounted price
* `payment_bot/razorpay_handlers.py` — order amount selection
* `utils/security.py` — payment signatures and callback tokens

External collaborators (the Firestore client, `datetime.fromisoformat`,
the Fernet authenticated cipher, the HMAC primitive, the RazorPay
gateway) are modelled as explicit parameters; everything the repository
itself computes is translated directly.

Conventions: timestamps are `Int` seconds (a `timedelta(days = d)` is
`d * 86400`); Python `datetime` values are their timestamp; a missing
dict key is `none`; the Firestore `users` collection is an association
list keyed by the integer user id (the code keys documents by
`str(user_id)`, which is injective on ints).  Python floats appear only
in `calculate_discounted_price`; on the finite static catalog the IEEE
results coincide with exact rational arithmetic (checked exhaustively
for all six plan x code pairs), so `ℚ` is an exact model there.
-/

/-- The fields of a stored Firestore user document that the modelled
functions read or write.  `create_user` initialises `free_uses = 0`,
`plan = "free"`, `expiry = None`; the `is_premium` / `premium_expiry` /
`premium_plan` / payment-audit keys only appear if some writer adds
them, so they are `Option` (absent key = `none`).  Bookkeeping fields
not read by any modelled function (`username`, `referral_bonus`,
`created_at`, `upgraded_at`) are omitted. -/
structure UserRecord where
  free_uses : Int := 0
  plan : String := "free"
  expiry : Option String := none
  is_premium : Option Bool := none
  premium_plan : Option String := none
  premium_expiry : Option String := none
  last_payment_id : Option String := none
  last_payment_date : Option String := none
  last_active : Int := 0
  deriving DecidableEq

/-- The `users` collection: an association list from user id to document.
`get` reads the first binding for a key. -/
abbrev Store := List (Int × UserRecord)

namespace FUser

/-- `firebase/user.py get_user`: fetch the user's document, `none` if the
document does not exist. -/
def get_user (s : Store) (uid : Int) : Option UserRecord :=
  (s.find? (fun p => p.1 == uid)).map (fun p => p.2)

/-- The default document written by `firebase/user.py create_user`
(`free_uses = 0`, `plan = 'free'`, `expiry = None`, timestamps set to
now). -/
def defaultUser (now : Int) : UserRecord := { last_active := now }

/-- `firebase/user.py create_user`: create the document with default
values unless it already exists. -/
def create_user (s : Store) (uid : Int) (now : Int) : Store × Bool :=
  match get_user s uid with
  | some _ => (s, true)
  | none => (s ++ [(uid, defaultUser now)], true)

/-- Apply `f` to the first document bound to `uid` (Firestore
`document(uid).update`). -/
def updateStore : Store → Int → (UserRecord → UserRecord) → Store
  | [], _, _ => []
  | (k, r) :: t, uid, f =>
    if k = uid then (k, f r) :: t else (k, r) :: updateStore t uid f

/-- `firebase/user.py update_user`: merge the partial dict `f` into the
document and stamp `last_active`; a Firestore `update` on a missing
document raises, which the function catches and reports as `false`. -/
def update_user (s : Store) (uid : Int) (f : UserRecord → UserRecord) (now : Int) :
    Store × Bool :=
  match get_user s uid with
  | none => (s, false)
  | some _ =>
    (updateStore s uid (fun r => { f r with last_active := now }), true)

/-- `firebase/user.py increment_free_uses`: load (or create) the user,
add 1 to `free_uses`, persist, and return the new count.  When the user
was absent the code works from the literal dict `{'free_uses': 0}`, so
the new count is `1`. -/
def increment_free_uses (s : Store) (uid : Int) (now : Int) : Store × Int :=
  match get_user s uid with
  | none =>
    let s1 := (create_user s uid now).1
    let new_count : Int := 0 + 1
    ((update_user s1 uid (fun r => { r with free_uses := new_count }) now).1, new_count)
  | some u =>
    let new_count := u.free_uses + 1
    ((update_user s uid (fun r => { r with free_uses := new_count }) now).1, new_count)

/-- Result of `get_remaining_free_uses`: the Python function returns
either `float('inf')` or an integer. -/
inductive Remaining where
  | unlimited
  | fin (n : Int)
  deriving DecidableEq

/-- `expiry.replace('Z', '+00:00')` — the shim applied before
`datetime.fromisoformat` in `get_remaining_free_uses`. -/
def zrep (s : String) : String :=
  ⟨s.data.flatMap (fun c => if c = 'Z' then ['+', '0', '0', ':', '0', '0'] else [c])⟩

/-- `firebase/user.py get_remaining_free_uses`.  `parse` stands for the
composite parse-and-compare admission built on the external
`datetime.fromisoformat`: `none` covers both a `fromisoformat` raise
and the `TypeError` Python raises when the parsed datetime is naive and
thus cannot be ordered against the **aware** `datetime.now(pytz.UTC)` —
either way the function-level `except` returns `0`; `some t` is a
successful parse whose comparison succeeds, contributing the instant
`t`.  (`parseForQuota`, defined below, derives this admission from an
abstract `fromisoformat`.)  A present-but-empty `expiry` string is
falsy in Python, so it skips the premium branch.  An absent user is
created and given the full limit `3`. -/
def get_remaining_free_uses (parse : String → Option Int) (s : Store) (uid : Int)
    (now : Int) : Store × Remaining :=
  match get_user s uid with
  | none => ((create_user s uid now).1, Remaining.fin 3)
  | some u =>
    let freeRem := Remaining.fin (max (3 - u.free_uses) 0)
    if u.plan ≠ "free" then
      match u.expiry with
      | some e =>
        if e ≠ "" then
          match parse (zrep e) with
          | none => (s, Remaining.fin 0)
          | some t => if t > now then (s, Remaining.unlimited) else (s, freeRem)
        else (s, freeRem)
      | none => (s, freeRem)
    else (s, freeRem)

/-- The dict `premium_data` built by `main_bot/premium.py
activate_premium_plan` and handed to `upgrade_user_plan`. -/
structure PremiumData where
  is_premium : Bool
  premium_plan : String
  premium_expiry : String
  last_payment_id : String
  last_payment_date : String
  deriving DecidableEq

/-- The runtime value passed as `upgrade_user_plan`'s `plan_type`
parameter: `firebase/user.py` documents it as one of the strings
`'premium_20'` / `'premium_99'`, but `main_bot/premium.py` passes its
`premium_data` dict. -/
inductive PlanTypeArg where
  | str (s : String)
  | dict (d : PremiumData)
  deriving DecidableEq

/-- `firebase/user.py upgrade_user_plan`: compares `plan_type` against
the strings `'premium_20'` (12 days) and `'premium_99'` (99 days) and
otherwise returns `false`.  A dict argument is equal to neither string,
so it falls to the `else` branch.  On a recognised string it persists
`plan` and a fresh `expiry` (`iso` stands for `datetime.isoformat`). -/
def upgrade_user_plan (iso : Int → String) (s : Store) (uid : Int)
    (plan_type : PlanTypeArg) (now : Int) : Store × Bool :=
  match plan_type with
  | PlanTypeArg.dict _ => (s, false)
  | PlanTypeArg.str t =>
    if t = "premium_20" then
      update_user s uid
        (fun r => { r with plan := t, expiry := some (iso (now + 12 * 86400)) }) now
    else if t = "premium_99" then
      update_user s uid
        (fun r => { r with plan := t, expiry := some (iso (now + 99 * 86400)) }) now
    else (s, false)

/-- `firebase/user.py reset_daily_uses`: stream every document with
`plan == 'free'`, write `free_uses = 0` to each, and return how many
documents were streamed (counted whether or not the counter changed). -/
def reset_daily_uses (s : Store) : Store × Int :=
  (s.map (fun p => if p.2.plan = "free" then (p.1, { p.2 with free_uses := 0 }) else p),
   ((s.filter (fun p => p.2.plan = "free")).length : Int))

end FUser

namespace Premium

/-- One entry of the static catalog `PREMIUM_PLANS` in
`main_bot/premium.py`. -/
structure PremiumPlan where
  name : String
  duration_days : Int
  price : Int
  description : String
  plan_id : String
  deriving DecidableEq

/-- `main_bot/premium.py PREMIUM_PLANS`. -/
def PREMIUM_PLANS : List (String × PremiumPlan) :=
  [("monthly",
    { name := "Monthly Premium", duration_days := 30, price := 49,
      description := "30 days of unlimited downloads", plan_id := "monthly_premium" }),
   ("quarterly",
    { name := "Quarterly Premium", duration_days := 90, price := 129,
      description := "90 days of unlimited downloads", plan_id := "quarterly_premium" }),
   ("yearly",
    { name := "Yearly Premium", duration_days := 365, price := 499,
      description := "365 days of unlimited downloads", plan_id := "yearly_premium" })]

/-- `main_bot/premium.py get_plan_details`: linear scan of the catalog
by `plan_id`. -/
def get_plan_details (plan_id : String) : Option PremiumPlan :=
  (PREMIUM_PLANS.find? (fun p => p.2.plan_id == plan_id)).map (fun p => p.2)

/-- `main_bot/premium.py calculate_expiry_date`: `now + duration_days`
for a known plan. -/
def calculate_expiry_date (now : Int) (plan_id : String) : Option Int :=
  (get_plan_details plan_id).map (fun p => now + p.duration_days * 86400)

/-- `main_bot/premium.py is_user_premium`: reads the stored
`is_premium` flag (default `False`) and the `premium_expiry` string
(falsy — absent or empty — means not premium); `parse` stands for the
composite parse-and-compare admission built on
`datetime.fromisoformat`: the `except (ValueError, TypeError)` maps a
parse failure and the `TypeError` from ordering an aware parse result
against the **naive** `datetime.utcnow()` alike to `(False, None)` —
the `none` cases — while `some t` is a successful parse whose
comparison succeeds.  (`parseForPremium`, defined below, derives this
admission from an abstract `fromisoformat`.) -/
def is_user_premium (parse : String → Option Int) (s : Store) (uid : Int)
    (now : Int) : Bool × Option Int :=
  match FUser.get_user s uid with
  | none => (false, none)
  | some u =>
    if u.is_premium.getD false = false then (false, none)
    else
      match u.premium_expiry with
      | none => (false, none)
      | some e =>
        if e = "" then (false, none)
        else
          match parse e with
          | none => (false, none)
          | some t => if t > now then (true, some t) else (false, some t)

/-- `main_bot/premium.py activate_premium_plan`: validates the plan,
computes the (possibly cumulative) new expiry, builds `premium_data`,
and hands it to `firebase.user.upgrade_user_plan` as the `plan_type`
argument.  `iso` stands for `datetime.isoformat`, `fmtDate` for
`strftime('%Y-%m-%d')`. -/
def activate_premium_plan (parse : String → Option Int) (iso : Int → String)
    (fmtDate : Int → String) (s : Store) (uid : Int) (plan_id : String)
    (payment_id : String) (now : Int) : Store × (Bool × String) :=
  match get_plan_details plan_id with
  | none => (s, (false, "Invalid plan selected"))
  | some plan =>
    match calculate_expiry_date now plan_id with
    | none => (s, (false, "Failed to calculate plan expiry date"))
    | some expiry_date =>
      let prem := is_user_premium parse s uid now
      let new_expiry :=
        match prem.1, prem.2 with
        | true, some ce => ce + plan.duration_days * 86400
        | _, _ => expiry_date
      let premium_data : FUser.PremiumData :=
        { is_premium := true, premium_plan := plan_id,
          premium_expiry := iso new_expiry,
          last_payment_id := payment_id, last_payment_date := iso now }
      let res := FUser.upgrade_user_plan iso s uid (FUser.PlanTypeArg.dict premium_data) now
      if res.2 then
        (res.1, (true, "Premium plan activated until " ++ fmtDate new_expiry))
      else
        (res.1, (false, "Failed to update premium status"))

end Premium

namespace Plans

/-- One entry of the static catalog `PREMIUM_PLANS` in
`payment_bot/plans.py` (this catalog also carries `price_in_paise`). -/
structure PayPlan where
  name : String
  duration_days : Int
  price : Int
  price_in_paise : Int
  description : String
  plan_id : String
  deriving DecidableEq

/-- `payment_bot/plans.py PREMIUM_PLANS`. -/
def PREMIUM_PLANS : List (String × PayPlan) :=
  [("monthly",
    { name := "Monthly Premium", duration_days := 30, price := 49,
      price_in_paise := 4900, description := "30 days of unlimited downloads",
      plan_id := "monthly_premium" }),
   ("quarterly",
    { name := "Quarterly Premium", duration_days := 90, price := 129,
      price_in_paise := 12900, description := "90 days of unlimited downloads",
      plan_id := "quarterly_premium" }),
   ("yearly",
    { name := "Yearly Premium", duration_days := 365, price := 499,
      price_in_paise := 49900, description := "365 days of unlimited downloads",
      plan_id := "yearly_premium" })]

/-- One entry of `payment_bot/plans.py DISCOUNT_CODES`. -/
structure Discount where
  percentage : Int
  max_discount : Int
  valid_until : String
  description : String
  deriving DecidableEq

/-- `payment_bot/plans.py DISCOUNT_CODES`. -/
def DISCOUNT_CODES : List (String × Discount) :=
  [("WELCOME10",
    { percentage := 10, max_discount := 50, valid_until := "2023-12-31",
      description := "10% off for new users" }),
   ("PREMIUM20",
    { percentage := 20, max_discount := 100, valid_until := "2023-12-31",
      description := "20% off for premium plans" })]

/-- `payment_bot/plans.py get_plan_by_id`. -/
def get_plan_by_id (plan_id : String) : Option PayPlan :=
  (PREMIUM_PLANS.find? (fun p => p.2.plan_id == plan_id)).map (fun p => p.2)

/-- Python `str.upper()` (character-wise upper-casing; the stored code
table is ASCII). -/
def pyUpper (s : String) : String := ⟨s.data.map Char.toUpper⟩

/-- Python `int()` applied to a rational value: truncation toward zero. -/
def pyint (q : ℚ) : Int := if q < 0 then -(Int.floor (-q)) else Int.floor q

/-- The dict returned by `calculate_discounted_price`.  The
invalid-plan branch omits the two `*_paise` keys, hence the `Option`. -/
structure DiscountResult where
  original_price : ℚ
  discount_amount : ℚ
  final_price : ℚ
  original_price_paise : Option Int
  final_price_paise : Option Int
  is_valid : Bool
  message : String
  deriving DecidableEq

/-- `payment_bot/plans.py calculate_discounted_price`: looks the code up
(upper-cased) in `DISCOUNT_CODES` — the stored `valid_until` field is
never consulted — applies the percentage with the `max_discount` cap in
major units (INR), and converts to paise with Python `int(· * 100)`.
Arithmetic is exact here (see file header). -/
def calculate_discounted_price (plan_id : String) (discount_code : String) :
    DiscountResult :=
  match get_plan_by_id plan_id with
  | none =>
    { original_price := 0, discount_amount := 0, final_price := 0,
      original_price_paise := none, final_price_paise := none,
      is_valid := false, message := "Invalid plan" }
  | some plan =>
    match (DISCOUNT_CODES.find? (fun p => p.1 == pyUpper discount_code)).map
        (fun p => p.2) with
    | none =>
      { original_price := (plan.price : ℚ), discount_amount := 0,
        final_price := (plan.price : ℚ),
        original_price_paise := some plan.price_in_paise,
        final_price_paise := some plan.price_in_paise,
        is_valid := false, message := "Invalid discount code" }
    | some disc =>
      let discount_amount : ℚ := ((plan.price : ℚ) * (disc.percentage : ℚ)) / 100
      let discount_amount :=
        if discount_amount > (disc.max_discount : ℚ) then (disc.max_discount : ℚ)
        else discount_amount
      let final_price := (plan.price : ℚ) - discount_amount
      { original_price := (plan.price : ℚ), discount_amount := discount_amount,
        final_price := final_price,
        original_price_paise := some plan.price_in_paise,
        final_price_paise := some (pyint (final_price * 100)),
        is_valid := true,
        message := "Discount applied: " ++ disc.description }

/-- The amount (in paise) that `payment_bot/razorpay_handlers.py
create_order` puts into the gateway order: the plan's `price_in_paise`,
replaced by the discounted paise price when a truthy discount code is
given and `calculate_discounted_price` reports `is_valid`.  The gateway
call itself and the rest of the order payload are external.  (The
`final_price_paise` key is always present when `is_valid` holds, so the
`getD` default is never used.) -/
def create_order_amount (plan_id : String) (discount_code : Option String) :
    Option Int :=
  (get_plan_by_id plan_id).map (fun plan =>
    match discount_code with
    | some dc =>
      if dc ≠ "" then
        let di := calculate_discounted_price plan_id dc
        if di.is_valid then di.final_price_paise.getD plan.price_in_paise
        else plan.price_in_paise
      else plan.price_in_paise
    | none => plan.price_in_paise)

end Plans

namespace Security

/-- `utils/security.py generate_payment_signature`: the hex HMAC-SHA256
of `"{order_id}|{payment_id}"` under the gateway secret.  `hmacHex`
stands for the external `hmac`/`hashlib` primitive
`hmac.new(key, msg, sha256).hexdigest()`; the repository only composes
it, so it is an abstract parameter. -/
def generate_payment_signature (hmacHex : String → String → String)
    (secret order_id payment_id : String) : String :=
  hmacHex secret (order_id ++ "|" ++ payment_id)

/-- `utils/security.py verify_payment_signature`: recompute and compare
(`hmac.compare_digest`, i.e. constant-time byte equality). -/
def verify_payment_signature (hmacHex : String → String → String)
    (secret order_id payment_id signature : String) : Bool :=
  generate_payment_signature hmacHex secret order_id payment_id == signature

/-! Callback tokens (`generate_callback_data` / `decode_callback_data`).
The payload is a character string; we work with `List Char` directly.
`f"{user_id}"` is Python's decimal rendering of an int, `str.split(':')`
the single-character split, `int(...)` the decimal parse; all three are
given explicit executable models below.  The Fernet cipher is external
(an authenticated symmetric cipher); it appears as a pair of abstract
functions `e` (encrypt) / `d` (decrypt, yielding `[]` on any failure,
which is how the `try/except` wrappers in `encrypt_data`/`decrypt_data`
surface errors). -/

/-- The decimal digit character for `d < 10` (`'*'` is dead code). -/
def digitChar (d : Nat) : Char :=
  match d with
  | 0 => '0' | 1 => '1' | 2 => '2' | 3 => '3' | 4 => '4'
  | 5 => '5' | 6 => '6' | 7 => '7' | 8 => '8' | 9 => '9'
  | _ => '*'

/-- Fuel-driven decimal rendering of a natural number (most significant
digit first); `fuel > n` suffices. -/
def renderNatAux : Nat → Nat → List Char
  | 0, _ => []
  | fuel + 1, n =>
    if n < 10 then [digitChar n]
    else renderNatAux fuel (n / 10) ++ [digitChar (n % 10)]

/-- Python's decimal rendering of a natural number. -/
def renderNat (n : Nat) : List Char := renderNatAux (n + 1) n

/-- Python's `f"{i}"` for an int: a leading `'-'` for negatives. -/
def renderInt (i : Int) : List Char :=
  if i < 0 then '-' :: renderNat i.natAbs else renderNat i.toNat

/-- Decimal parse of a digit string (the digits-only core of Python
`int()`); `none` on the empty string or any non-digit, which in the
source surfaces as a `ValueError` caught by `decode_callback_data`. -/
def parseNat? (l : List Char) : Option Nat :=
  if l.isEmpty then none
  else
    l.foldl
      (fun acc c =>
        match acc with
        | none => none
        | some a => if c.isDigit then some (10 * a + (c.toNat - 48)) else none)
      (some 0)

/-- Python `int()` on a possibly sign-prefixed decimal string (the `+`
sign and surrounding whitespace that Python also tolerates never occur
in the payloads the repository builds). -/
def parseInt? (l : List Char) : Option Int :=
  match l with
  | [] => none
  | c :: r =>
    if c = '-' then (parseNat? r).map (fun n => -(n : Int))
    else (parseNat? (c :: r)).map (fun n => (n : Int))

/-- Python `str.split(':')`: maximal chunks between `':'` separators
(adjacent separators and ends give empty chunks). -/
def splitColon : List Char → List (List Char)
  | [] => [[]]
  | c :: r =>
    match splitColon r with
    | [] => [[]]
    | p :: ps => if c = ':' then [] :: p :: ps else (c :: p) :: ps

/-- `utils/security.py encrypt_data`: empty input short-circuits to
`""`; otherwise the Fernet encryption `e` (its own failure path is not
modelled — the cipher object always encrypts). -/
def encrypt_data (e : List Char → List Char) (data : List Char) : List Char :=
  if data = [] then [] else e data

/-- `utils/security.py decrypt_data`: empty input short-circuits to
`""`; decryption failure (caught exception) also yields `""`, which is
folded into the abstract `d`. -/
def decrypt_data (d : List Char → List Char) (data : List Char) : List Char :=
  if data = [] then [] else d data

/-- `utils/security.py generate_callback_data`: encrypt
`f"{user_id}:{plan_id}:{timestamp}"` where `timestamp = int(time.time())`
is the issue time `t0`. -/
def generate_callback_data (e : List Char → List Char) (uid : Int)
    (plan_id : List Char) (t0 : Int) : List Char :=
  encrypt_data e (renderInt uid ++ ':' :: plan_id ++ ':' :: renderInt t0)

/-- `utils/security.py decode_callback_data`: decrypt, require exactly 3
colon-separated fields, reject tokens older than 86400 seconds, and
return `(int(user_id), plan_id)`; every failure path (empty decryption,
wrong field count, unparsable numbers, expiry) collapses to
`(None, None)`. -/
def decode_callback_data (d : List Char → List Char) (now : Int)
    (token : List Char) : Option Int × Option (List Char) :=
  let dec := decrypt_data d token
  if dec = [] then (none, none)
  else
    match splitColon dec with
    | [u, p, t] =>
      match parseInt? t with
      | none => (none, none)
      | some ts =>
        if now - ts > 86400 then (none, none)
        else
          match parseInt? u with
          | none => (none, none)
          | some uidv => (some uidv, some p)
    | _ => (none, none)

end Security

/-! ### Helper lemmas -/

namespace FUser

theorem get_user_updateStore_self (s : Store) (uid : Int) (f : UserRecord → UserRecord) :
    get_user (updateStore s uid f) uid = (get_user s uid).map f := by
  induction s with
  | nil => rfl
  | cons hd t ih =>
    obtain ⟨k, r⟩ := hd
    by_cases hk : k = uid
    · subst hk
      rw [updateStore, if_pos rfl]
      unfold get_user
      rw [List.find?_cons_of_pos _ (by simp), List.find?_cons_of_pos _ (by simp)]
      rfl
    · rw [updateStore, if_neg hk]
      unfold get_user
      rw [List.find?_cons_of_neg _ (by simp [hk]), List.find?_cons_of_neg _ (by simp [hk])]
      exact ih

theorem get_user_append_new (s : Store) (uid : Int) (r : UserRecord)
    (h : get_user s uid = none) : get_user (s ++ [(uid, r)]) uid = some r := by
  induction s with
  | nil =>
    unfold get_user
    rw [List.nil_append, List.find?_cons_of_pos _ (by simp)]
    rfl
  | cons p t ih =>
    obtain ⟨k, v⟩ := p
    by_cases hk : k = uid
    · subst hk
      unfold get_user at h
      rw [List.find?_cons_of_pos _ (by simp)] at h
      simp at h
    · have ht : get_user t uid = none := by
        unfold get_user at h
        rwa [List.find?_cons_of_neg _ (by simp [hk])] at h
      unfold get_user
      rw [List.cons_append, List.find?_cons_of_neg _ (by simp [hk])]
      exact ih ht

end FUser

namespace Security

theorem digitChar_isDigit {d : Nat} (h : d < 10) : (digitChar d).isDigit = true := by
  interval_cases d <;> decide

theorem digitChar_toNat {d : Nat} (h : d < 10) : (digitChar d).toNat = 48 + d := by
  interval_cases d <;> decide

theorem digitChar_ne_colon {d : Nat} (h : d < 10) : digitChar d ≠ ':' := by
  interval_cases d <;> decide

theorem parseNat?_singleton {c : Char} (h : c.isDigit = true) :
    parseNat? [c] = some (c.toNat - 48) := by
  simp [parseNat?, List.foldl, h]

theorem parseNat?_ne_nil {l : List Char} {v : Nat} (h : parseNat? l = some v) :
    l ≠ [] := by
  intro he; subst he; simp [parseNat?] at h

theorem parseNat?_foldl {l : List Char} {v : Nat} (h : parseNat? l = some v) :
    l.foldl
      (fun acc c =>
        match acc with
        | none => none
        | some a => if c.isDigit then some (10 * a + (c.toNat - 48)) else none)
      (some 0) = some v := by
  have hne : l ≠ [] := parseNat?_ne_nil h
  simpa [parseNat?, hne] using h

theorem parseNat?_append_digit {l : List Char} {v : Nat} {c : Char}
    (h : parseNat? l = some v) (hc : c.isDigit = true) :
    parseNat? (l ++ [c]) = some (10 * v + (c.toNat - 48)) := by
  have hne : l ≠ [] := parseNat?_ne_nil h
  have hfold := parseNat?_foldl h
  have hne2 : (l ++ [c]).isEmpty = false := by
    cases l with
    | nil => exact absurd rfl hne
    | cons a t => rfl
  simp only [parseNat?, hne2, Bool.false_eq_true, if_false, List.foldl_append, hfold,
    List.foldl, hc, if_true]

theorem parseNat?_renderNatAux :
    ∀ fuel n, n < fuel → parseNat? (renderNatAux fuel n) = some n := by
  intro fuel
  induction fuel with
  | zero => intro n hn; omega
  | succ f ih =>
    intro n hn
    rw [renderNatAux]
    by_cases h10 : n < 10
    · rw [if_pos h10, parseNat?_singleton (digitChar_isDigit h10), digitChar_toNat h10]
      simp
    · rw [if_neg h10]
      have hdiv : n / 10 < n := Nat.div_lt_self (by omega) (by omega)
      have hrec := ih (n / 10) (by omega)
      have hm : n % 10 < 10 := Nat.mod_lt _ (by omega)
      rw [parseNat?_append_digit hrec (digitChar_isDigit hm), digitChar_toNat hm]
      have := Nat.div_add_mod n 10
      congr 1
      omega

theorem renderNatAux_digits :
    ∀ fuel n, n < fuel → ∀ c ∈ renderNatAux fuel n, c.isDigit = true := by
  intro fuel
  induction fuel with
  | zero => intro n hn; omega
  | succ f ih =>
    intro n hn c hc
    rw [renderNatAux] at hc
    by_cases h10 : n < 10
    · rw [if_pos h10] at hc
      simp at hc
      subst hc
      exact digitChar_isDigit h10
    · rw [if_neg h10] at hc
      have hdiv : n / 10 < n := Nat.div_lt_self (by omega) (by omega)
      rcases List.mem_append.mp hc with hm | hm
      · exact ih (n / 10) (by omega) c hm
      · simp at hm
        subst hm
        exact digitChar_isDigit (Nat.mod_lt _ (by omega))

theorem parseNat?_renderNat (n : Nat) : parseNat? (renderNat n) = some n :=
  parseNat?_renderNatAux (n + 1) n (Nat.lt_succ_self n)

theorem renderNat_digits (n : Nat) : ∀ c ∈ renderNat n, c.isDigit = true :=
  renderNatAux_digits (n + 1) n (Nat.lt_succ_self n)

theorem renderNat_ne_nil (n : Nat) : renderNat n ≠ [] :=
  parseNat?_ne_nil (parseNat?_renderNat n)

theorem parseInt?_renderInt (i : Int) : parseInt? (renderInt i) = some i := by
  by_cases hneg : i < 0
  · rw [renderInt, if_pos hneg, parseInt?, if_pos rfl, parseNat?_renderNat]
    show some (-(i.natAbs : Int)) = some i
    exact congrArg some (by omega)
  · rw [renderInt, if_neg hneg]
    obtain ⟨c, r, hcr⟩ : ∃ c r, renderNat i.toNat = c :: r := by
      cases h : renderNat i.toNat with
      | nil => exact absurd h (renderNat_ne_nil _)
      | cons c r => exact ⟨c, r, rfl⟩
    have hd : c.isDigit = true := renderNat_digits i.toNat c (by rw [hcr]; simp)
    have hcm : c ≠ '-' := by
      intro hcc; subst hcc; simp [Char.isDigit] at hd
    rw [hcr, parseInt?, if_neg hcm, ← hcr, parseNat?_renderNat]
    show some ((i.toNat : Int)) = some i
    exact congrArg some (by omega)

theorem renderInt_ne_colon (i : Int) : ∀ c ∈ renderInt i, c ≠ ':' := by
  intro c hc
  by_cases hneg : i < 0
  · rw [renderInt, if_pos hneg] at hc
    rcases List.mem_cons.mp hc with h | h
    · subst h; decide
    · have := renderNat_digits i.natAbs c h
      intro hcc; subst hcc; simp [Char.isDigit] at this
  · rw [renderInt, if_neg hneg] at hc
    have := renderNat_digits i.toNat c hc
    intro hcc; subst hcc; simp [Char.isDigit] at this

theorem splitColon_ne_nil (l : List Char) : splitColon l ≠ [] := by
  cases l with
  | nil => simp [splitColon]
  | cons c r =>
    rw [splitColon]
    cases h : splitColon r with
    | nil => simp
    | cons p ps => by_cases hc : c = ':' <;> simp [hc]

theorem splitColon_no_colon {l : List Char} (h : ∀ c ∈ l, c ≠ ':') :
    splitColon l = [l] := by
  induction l with
  | nil => rfl
  | cons c r ih =>
    have hc : c ≠ ':' := h c (by simp)
    have hr := ih (fun x hx => h x (by simp [hx]))
    rw [splitColon, hr]
    simp [hc]

theorem splitColon_append {a : List Char} (b : List Char)
    (h : ∀ c ∈ a, c ≠ ':') :
    splitColon (a ++ ':' :: b) = a :: splitColon b := by
  induction a with
  | nil =>
    cases hb : splitColon b with
    | nil => exact absurd hb (splitColon_ne_nil b)
    | cons p ps => simp [splitColon, hb]
  | cons c r ih =>
    have hc : c ≠ ':' := h c (by simp)
    have hr := ih (fun x hx => h x (by simp [hx]))
    rw [List.cons_append, splitColon, hr]
    simp [hc]

/-- Core round-trip fact: decoding a genuinely issued token under a
cipher whose decryption inverts encryption yields the original pair
inside the 24-hour window and `(none, none)` outside it, provided the
plan id contains no `':'` separator. -/
theorem decode_generate (e d : List Char → List Char)
    (henc : ∀ s, s ≠ [] → d (e s) = s) (hne : ∀ s, s ≠ [] → e s ≠ [])
    (uid t0 now : Int) (plan : List Char) (hp : ':' ∉ plan) :
    decode_callback_data d now (generate_callback_data e uid plan t0) =
      if now - t0 > 86400 then (none, none) else (some uid, some plan) := by
  have hpne : (renderInt uid ++ ':' :: plan ++ ':' :: renderInt t0) ≠ [] := by
    cases hru : renderInt uid with
    | nil => simp
    | cons a b => simp
  have hgen : generate_callback_data e uid plan t0 =
      e (renderInt uid ++ ':' :: plan ++ ':' :: renderInt t0) := by
    rw [generate_callback_data, encrypt_data, if_neg hpne]
  have hdec : decrypt_data d (e (renderInt uid ++ ':' :: plan ++ ':' :: renderInt t0)) =
      renderInt uid ++ ':' :: plan ++ ':' :: renderInt t0 := by
    rw [decrypt_data, if_neg (hne _ hpne)]
    exact henc _ hpne
  have hsplit : splitColon (renderInt uid ++ ':' :: plan ++ ':' :: renderInt t0) =
      [renderInt uid, plan, renderInt t0] := by
    rw [List.append_assoc, List.cons_append,
      splitColon_append _ (fun c hc => renderInt_ne_colon uid c hc),
      splitColon_append _ (fun c hc hceq => hp (hceq ▸ hc)),
      splitColon_no_colon (fun c hc => renderInt_ne_colon t0 c hc)]
  rw [hgen, decode_callback_data]
  simp only [hdec, hsplit, parseInt?_renderInt, hpne, if_false]

/-- Any token whose decryption fails (in particular, by the cipher's
authentication, any string outside the range of `e`) decodes to
`(none, none)`. -/
theorem decode_of_decrypt_nil (d : List Char → List Char) (now : Int)
    (t : List Char) (h : decrypt_data d t = []) :
    decode_callback_data d now t = (none, none) := by
  rw [decode_callback_data]
  simp [h]

end Security

/-! ### Concrete instances of the abstract external primitives, used to
instantiate witnesses and counterexamples. -/

/-- A stand-in for `datetime.fromisoformat` on the few literals the
witnesses use: parses the one well-formed timestamp string and rejects
everything else, as the library does. -/
def sampleParse (s : String) : Option Int :=
  if s = "2099-01-01T00:00:00" then some 4070908800
  else if s = "2020-01-01T00:00:00" then some 1577836800
  else none

/-- A stand-in serializer instantiating the abstract `isoformat` /
`strftime` parameters in witnesses. -/
def sampleIso (t : Int) : String := toString t

/-- A toy cipher pair satisfying the round-trip and authentication
hypotheses, for witnesses: encryption prefixes a marker character. -/
def sampleEnc (s : List Char) : List Char := 'E' :: s

/-- Decryption for `sampleEnc`: strips the marker, failing (empty
result) on anything that is not a marked string. -/
def sampleDec (t : List Char) : List Char :=
  match t with
  | [] => []
  | c :: r => if c = 'E' then r else []

/-- A concrete function instantiating the abstract HMAC-SHA256
parameter in witnesses. -/
def sampleHmac (key msg : String) : String := key ++ "#" ++ msg

/-! ### Shared facts about `activate_premium_plan` -/

/-- For every plan id present in the catalog, `activate_premium_plan`
reaches the persist step, which always fails: `upgrade_user_plan`
receives the `premium_data` dict as its `plan_type` argument, the dict
is equal to neither `'premium_20'` nor `'premium_99'`, so it returns
`False` without touching the store. -/
theorem activate_no_persist (parse : String → Option Int) (iso fmtDate : Int → String)
    (s : Store) (uid : Int) (plan_id payment_id : String) (now : Int)
    (plan : Premium.PremiumPlan) (h : Premium.get_plan_details plan_id = some plan) :
    Premium.activate_premium_plan parse iso fmtDate s uid plan_id payment_id now =
      (s, (false, "Failed to update premium status")) := by
  rw [Premium.activate_premium_plan, h, Premium.calculate_expiry_date, h]
  simp [FUser.upgrade_user_plan]

/-! ### Claim theorems -/

/-- Claim C1 (code_bug): the spec says `activate` persists the premium
fields and returns success, surfacing only genuine store failures as
`(false, "Failed to update premium status")`.  In the code the persist
step can never succeed: for every user, every catalog plan, every store
state and every instantiation of the external primitives, activation
returns `(false, "Failed to update premium status")` and leaves the
store exactly as it was — nothing is ever persisted. -/
theorem C1_activation_never_persists (parse : String → Option Int)
    (iso fmtDate : Int → String) (s : Store) (uid : Int)
    (plan_id payment_id : String) (now : Int) (plan : Premium.PremiumPlan)
    (h : Premium.get_plan_details plan_id = some plan) :
    Premium.activate_premium_plan parse iso fmtDate s uid plan_id payment_id now =
      (s, (false, "Failed to update premium status")) :=
  activate_no_persist parse iso fmtDate s uid plan_id payment_id now plan h

/-- Witness for C1 at a concrete input: the monthly plan is in the
catalog, and activating it for user 42 on an empty store fails with the
persist-failure message and an unchanged store. -/
theorem C1_activation_never_persists_witness :
    Premium.get_plan_details "monthly_premium" =
      some { name := "Monthly Premium", duration_days := 30, price := 49,
             description := "30 days of unlimited downloads",
             plan_id := "monthly_premium" } ∧
    Premium.activate_premium_plan sampleParse sampleIso sampleIso [] 42
        "monthly_premium" "pay_1" 1000 =
      ([], (false, "Failed to update premium status")) :=
  ⟨rfl,
   C1_activation_never_persists sampleParse sampleIso sampleIso [] 42
     "monthly_premium" "pay_1" 1000 _ rfl⟩

/-- Claim C2 (code_bug): the spec says a first activation stores
`expiry = now + 30d` and a second one before expiry stores
`first_expiry + 30d`.  In the code neither activation stores anything:
after two successive activations (any plans in the catalog, any times),
the store — and in particular the user's stored record and expiry — is
exactly the original one. -/
theorem C2_no_expiry_accumulates (parse : String → Option Int)
    (iso fmtDate : Int → String) (s : Store) (uid : Int)
    (plan_id1 plan_id2 pay1 pay2 : String) (now1 now2 : Int)
    (plan1 plan2 : Premium.PremiumPlan)
    (h1 : Premium.get_plan_details plan_id1 = some plan1)
    (h2 : Premium.get_plan_details plan_id2 = some plan2) :
    (Premium.activate_premium_plan parse iso fmtDate
        (Premium.activate_premium_plan parse iso fmtDate s uid plan_id1 pay1 now1).1
        uid plan_id2 pay2 now2).1 = s ∧
    FUser.get_user
        (Premium.activate_premium_plan parse iso fmtDate
          (Premium.activate_premium_plan parse iso fmtDate s uid plan_id1 pay1 now1).1
          uid plan_id2 pay2 now2).1 uid = FUser.get_user s uid := by
  have e1 := activate_no_persist parse iso fmtDate s uid plan_id1 pay1 now1 plan1 h1
  rw [e1]
  have e2 := activate_no_persist parse iso fmtDate s uid plan_id2 pay2 now2 plan2 h2
  rw [e2]
  exact ⟨rfl, rfl⟩

/-- Witness for C2 at a concrete input: two monthly activations for a
free user, the second well before the first would have expired, leave
the store exactly as it began. -/
theorem C2_no_expiry_accumulates_witness :
    (Premium.activate_premium_plan sampleParse sampleIso sampleIso
        (Premium.activate_premium_plan sampleParse sampleIso sampleIso
          [(7, { free_uses := 0 })] 7 "monthly_premium" "pay_1" 1000).1
        7 "monthly_premium" "pay_2" 2000).1 = [(7, { free_uses := 0 })] ∧
    FUser.get_user
        (Premium.activate_premium_plan sampleParse sampleIso sampleIso
          (Premium.activate_premium_plan sampleParse sampleIso sampleIso
            [(7, { free_uses := 0 })] 7 "monthly_premium" "pay_1" 1000).1
          7 "monthly_premium" "pay_2" 2000).1 7 =
      FUser.get_user [(7, { free_uses := 0 })] 7 :=
  C2_no_expiry_accumulates sampleParse sampleIso sampleIso
    [(7, { free_uses := 0 })] 7 "monthly_premium" "monthly_premium"
    "pay_1" "pay_2" 1000 2000 _ _ rfl rfl

/-- Result of the external `datetime.fromisoformat`: the instant it
denotes on the common UTC number line, and whether the parsed datetime
carries a timezone (aware) or not (naive).  Python refuses to order a
naive datetime against an aware one — the comparison raises
`TypeError`.  (`datetime.now(pytz.UTC)` and `datetime.utcnow()` read
the same instant; the former is aware, the latter naive UTC wall
clock.) -/
structure PyDatetime where
  ts : Int
  aware : Bool
  deriving DecidableEq

/-- The effective parse-and-compare admission of
`get_remaining_free_uses` for a shared external `fromisoformat` `iso`:
its comparison partner `datetime.now(pytz.UTC)` is **aware**, so a
`fromisoformat` raise and the `TypeError` from comparing a naive parse
result both land in the same function-level `except` (return 0) — the
`none` cases of the abstract `parse` the function is called with.  A
successful aware parse contributes its instant. -/
def parseForQuota (iso : String → Option PyDatetime) (s : String) : Option Int :=
  match iso s with
  | none => none
  | some d => if d.aware then some d.ts else none

/-- The effective parse-and-compare admission of `is_user_premium` for
the same external `iso`: its comparison partner `datetime.utcnow()` is
**naive**, and its `except (ValueError, TypeError)` maps a parse
failure and an aware parse result alike to `(False, None)` — the
`none` cases of the abstract `parse` the function is called with.  A
successful naive parse contributes its instant. -/
def parseForPremium (iso : String → Option PyDatetime) (s : String) : Option Int :=
  match iso s with
  | none => none
  | some d => if d.aware then none else some d.ts

/-- `fromisoformat` on the concrete strings the C4 record uses: the
bare string parses naive, the `+00:00`-suffixed one aware, everything
else fails — as the real library behaves. -/
def sampleIsoParse (s : String) : Option PyDatetime :=
  if s = "2099-01-01T00:00:00" then some { ts := 4070908800, aware := false }
  else if s = "2099-01-01T00:00:00+00:00" then
    some { ts := 4070908800, aware := true }
  else none

/-- Claim C3 (amended): for a stored free-plan user with `free_uses = k`,
`k < 3`, `get_remaining_free_uses` returns `3 - k`; one
`increment_free_uses` stores and returns `k + 1`, after which
`get_remaining_free_uses` returns `max (3 - (k+1)) 0`; an absent user is
created with the default record and given the full limit `3`; and a user
passing the function's own premium test — `plan ≠ 'free'` with a
nonempty stored `expiry` parsing to a future instant — gets unlimited.
(The claim's cross-reference to the §4.2 check is what fails: this
function reads `plan`/`expiry`, not `is_premium`/`premium_expiry`; see
the counterexample.) -/
theorem C3_quota_engine (parse : String → Option Int) :
    (∀ (s : Store) (uid now : Int) (r : UserRecord),
      FUser.get_user s uid = some r → r.plan = "free" → r.free_uses < 3 →
      (FUser.get_remaining_free_uses parse s uid now).2 =
        FUser.Remaining.fin (3 - r.free_uses)) ∧
    (∀ (s : Store) (uid now : Int) (r : UserRecord),
      FUser.get_user s uid = some r → r.plan = "free" →
      FUser.increment_free_uses s uid now =
        (FUser.updateStore s uid
          (fun u => { u with free_uses := r.free_uses + 1, last_active := now }),
         r.free_uses + 1) ∧
      (FUser.get_remaining_free_uses parse
          (FUser.increment_free_uses s uid now).1 uid now).2 =
        FUser.Remaining.fin (max (3 - (r.free_uses + 1)) 0)) ∧
    (∀ (s : Store) (uid now : Int),
      FUser.get_user s uid = none →
      FUser.get_remaining_free_uses parse s uid now =
        (s ++ [(uid, FUser.defaultUser now)], FUser.Remaining.fin 3)) ∧
    (∀ (s : Store) (uid now : Int) (r : UserRecord) (e : String) (t : Int),
      FUser.get_user s uid = some r → r.plan ≠ "free" →
      r.expiry = some e → e ≠ "" → parse (FUser.zrep e) = some t → t > now →
      (FUser.get_remaining_free_uses parse s uid now).2 =
        FUser.Remaining.unlimited) := by
  refine ⟨?_, ?_, ?_, ?_⟩
  · intro s uid now r hr hplan hk
    rw [FUser.get_remaining_free_uses, hr]
    simp only [hplan, ne_eq, not_true_eq_false, if_false, ite_false]
    have : max (3 - r.free_uses) 0 = 3 - r.free_uses := by omega
    simp [this]
  · intro s uid now r hr hplan
    have hinc : FUser.increment_free_uses s uid now =
        (FUser.updateStore s uid
          (fun u => { u with free_uses := r.free_uses + 1, last_active := now }),
         r.free_uses + 1) := by
      rw [FUser.increment_free_uses, hr]
      simp only [FUser.update_user, hr]
    refine ⟨hinc, ?_⟩
    rw [hinc]
    have hg : FUser.get_user
        (FUser.updateStore s uid
          (fun u => { u with free_uses := r.free_uses + 1, last_active := now })) uid =
        some { r with free_uses := r.free_uses + 1, last_active := now } := by
      rw [FUser.get_user_updateStore_self, hr]
      rfl
    rw [FUser.get_remaining_free_uses, hg]
    simp [hplan]
  · intro s uid now h
    rw [FUser.get_remaining_free_uses, h, FUser.create_user, h]
  · intro s uid now r e t hr hplan he hne hparse ht
    rw [FUser.get_remaining_free_uses, hr]
    simp [hplan, he, hne, hparse, ht]

/-- Witness for C3 at concrete inputs: a free user with 1 use has 2
left; consuming brings it to 1; an absent user is created and gets 3;
a premium-plan record with a future expiry gets unlimited. -/
theorem C3_quota_engine_witness :
    (FUser.get_remaining_free_uses sampleParse [(3, { free_uses := 1 })] 3 500).2 =
      FUser.Remaining.fin 2 ∧
    (FUser.get_remaining_free_uses sampleParse
        (FUser.increment_free_uses [(3, { free_uses := 1 })] 3 500).1 3 500).2 =
      FUser.Remaining.fin 1 ∧
    FUser.get_remaining_free_uses sampleParse [] 4 500 =
      ([(4, FUser.defaultUser 500)], FUser.Remaining.fin 3) ∧
    (FUser.get_remaining_free_uses sampleParse
        [(5, { plan := "monthly_premium", expiry := some "2099-01-01T00:00:00" })]
        5 500).2 = FUser.Remaining.unlimited := by
  refine ⟨?_, ?_, ?_, ?_⟩
  · exact ((C3_quota_engine sampleParse).1 [(3, { free_uses := 1 })] 3 500
      { free_uses := 1 } rfl rfl (by decide)).trans (by decide)
  · exact (((C3_quota_engine sampleParse).2.1 [(3, { free_uses := 1 })] 3 500
      { free_uses := 1 } rfl rfl).2).trans (by decide)
  · exact (C3_quota_engine sampleParse).2.2.1 [] 4 500 rfl
  · exact (C3_quota_engine sampleParse).2.2.2
      [(5, { plan := "monthly_premium", expiry := some "2099-01-01T00:00:00" })]
      5 500 { plan := "monthly_premium", expiry := some "2099-01-01T00:00:00" }
      "2099-01-01T00:00:00" 4070908800 rfl (by decide) rfl (by decide) (by decide)
      (by decide)

/-- Counterexample to C3 as stated: a stored record whose §4.2 premium
check (`is_user_premium`, reading `is_premium`/`premium_expiry`) is
true, yet `get_remaining_free_uses` (which reads `plan`/`expiry`)
returns the finite free-tier count 3, not unlimited. -/
theorem C3_counterexample :
    Premium.is_user_premium sampleParse
        [(9, { free_uses := 0, plan := "free", is_premium := some true,
               premium_expiry := some "2099-01-01T00:00:00" })] 9 1000 =
      (true, some 4070908800) ∧
    (FUser.get_remaining_free_uses sampleParse
        [(9, { free_uses := 0, plan := "free", is_premium := some true,
               premium_expiry := some "2099-01-01T00:00:00" })] 9 1000).2 =
      FUser.Remaining.fin 3 := by
  exact ⟨by decide, by decide⟩

/-- Exact characterisation of the Quota Engine's unlimited outcome for
a shared external `fromisoformat` `iso`: `plan ≠ 'free'` and a nonempty
stored `expiry` that (after the `Z` shim) parses to an **aware** future
datetime.  A naive parse result cannot be compared with the aware
`datetime.now(pytz.UTC)`; the `TypeError` is caught and the user gets
0, not unlimited. -/
theorem quota_unlimited_iff (iso : String → Option PyDatetime) (s : Store)
    (uid now : Int) (r : UserRecord) (hr : FUser.get_user s uid = some r) :
    (FUser.get_remaining_free_uses (parseForQuota iso) s uid now).2 =
        FUser.Remaining.unlimited ↔
      (r.plan ≠ "free" ∧ ∃ e, r.expiry = some e ∧ e ≠ "" ∧
        ∃ d, iso (FUser.zrep e) = some d ∧ d.aware = true ∧ d.ts > now) := by
  rw [FUser.get_remaining_free_uses, hr]
  by_cases hplan : r.plan = "free"
  · simp [hplan]
  · cases he : r.expiry with
    | none => simp [hplan, he]
    | some e =>
      by_cases hee : e = ""
      · simp [hplan, he, hee]
      · cases hi : iso (FUser.zrep e) with
        | none => simp [hplan, he, hee, parseForQuota, hi]
        | some d =>
          cases hw : d.aware with
          | false => simp [hplan, he, hee, parseForQuota, hi, hw]
          | true =>
            by_cases ht : d.ts > now
            · simp [hplan, he, hee, parseForQuota, hi, hw, ht]
            · simp [hplan, he, hee, parseForQuota, hi, hw, ht]

/-- Exact characterisation of the Premium State Machine's positive
outcome for the same external `iso`: the `is_premium` flag and a
nonempty stored `premium_expiry` parsing to a **naive** future
datetime.  An aware parse result cannot be compared with the naive
`datetime.utcnow()`; the `TypeError` is caught and the check reports
`(False, None)`. -/
theorem premium_true_iff (iso : String → Option PyDatetime) (s : Store)
    (uid now : Int) (r : UserRecord) (hr : FUser.get_user s uid = some r) :
    (Premium.is_user_premium (parseForPremium iso) s uid now).1 = true ↔
      (r.is_premium.getD false = true ∧ ∃ e, r.premium_expiry = some e ∧ e ≠ "" ∧
        ∃ d, iso e = some d ∧ d.aware = false ∧ d.ts > now) := by
  rw [Premium.is_user_premium, hr]
  cases hflag : r.is_premium.getD false with
  | false => simp [hflag]
  | true =>
    cases hpe : r.premium_expiry with
    | none => simp [hflag, hpe]
    | some e =>
      by_cases hee : e = ""
      · simp [hflag, hpe, hee]
      · cases hi : iso e with
        | none => simp [hflag, hpe, hee, parseForPremium, hi]
        | some d =>
          cases hw : d.aware with
          | true => simp [hflag, hpe, hee, parseForPremium, hi, hw]
          | false =>
            by_cases ht : d.ts > now
            · simp [hflag, hpe, hee, parseForPremium, hi, hw, ht]
            · simp [hflag, hpe, hee, parseForPremium, hi, hw, ht]

/-- Claim C4 (amended): the two premium determinations are **not**
equivalent on stored records — and not merely because of the field
naming.  The quota path compares the parsed expiry against the aware
`datetime.now(pytz.UTC)` while the premium path compares against the
naive `datetime.utcnow()`, and Python's `TypeError` on naive-vs-aware
ordering is caught by each.  Exactly: `get_remaining_free_uses` reports
unlimited iff `plan ≠ 'free'` and `expiry` is a nonempty string parsing
(after the `Z` shim) to an aware future datetime, while
`is_user_premium` reports true iff the `is_premium` flag is set and
`premium_expiry` is a nonempty string parsing to a naive future
datetime; consequently, on every record whose field schemes agree —
flag set, `plan ≠ 'free'`, the same `Z`-free nonempty string in both
expiry fields, parsing to a future instant — the two checks always
*disagree*, because each admits exactly the awareness the other
rejects. -/
theorem C4_premium_checks_inequivalent (iso : String → Option PyDatetime)
    (s : Store) (uid now : Int) :
    (∀ r : UserRecord, FUser.get_user s uid = some r →
      ((FUser.get_remaining_free_uses (parseForQuota iso) s uid now).2 =
          FUser.Remaining.unlimited ↔
        (r.plan ≠ "free" ∧ ∃ e, r.expiry = some e ∧ e ≠ "" ∧
          ∃ d, iso (FUser.zrep e) = some d ∧ d.aware = true ∧ d.ts > now))) ∧
    (∀ r : UserRecord, FUser.get_user s uid = some r →
      ((Premium.is_user_premium (parseForPremium iso) s uid now).1 = true ↔
        (r.is_premium.getD false = true ∧ ∃ e, r.premium_expiry = some e ∧
          e ≠ "" ∧ ∃ d, iso e = some d ∧ d.aware = false ∧ d.ts > now))) ∧
    (∀ (r : UserRecord) (e : String) (d : PyDatetime),
      FUser.get_user s uid = some r → r.plan ≠ "free" →
      r.is_premium.getD false = true →
      r.expiry = some e → r.premium_expiry = some e → e ≠ "" →
      FUser.zrep e = e → iso e = some d → d.ts > now →
      ¬ ((FUser.get_remaining_free_uses (parseForQuota iso) s uid now).2 =
            FUser.Remaining.unlimited ↔
          (Premium.is_user_premium (parseForPremium iso) s uid now).1 = true)) := by
  refine ⟨fun r hr => quota_unlimited_iff iso s uid now r hr,
    fun r hr => premium_true_iff iso s uid now r hr, ?_⟩
  intro r e d hr hplan hflag he hpe hee hz hi ht
  rw [quota_unlimited_iff iso s uid now r hr,
    premium_true_iff iso s uid now r hr]
  intro hiff
  cases hw : d.aware with
  | true =>
    obtain ⟨_, e2, he2, _, d2, hd2, hw2, _⟩ := hiff.mp
      ⟨hplan, e, he, hee, d, by rw [hz]; exact hi, hw, ht⟩
    rw [hpe] at he2
    simp only [Option.some.injEq] at he2
    subst he2
    rw [hi] at hd2
    simp only [Option.some.injEq] at hd2
    subst hd2
    rw [hw] at hw2
    exact Bool.noConfusion hw2
  | false =>
    obtain ⟨_, e2, he2, _, d2, hd2, hw2, _⟩ := hiff.mpr
      ⟨hflag, e, hpe, hee, d, hi, hw, ht⟩
    rw [he] at he2
    simp only [Option.some.injEq] at he2
    subst he2
    rw [hz, hi] at hd2
    simp only [Option.some.injEq] at hd2
    subst hd2
    rw [hw] at hw2
    exact Bool.noConfusion hw2

/-- Witness for C4 at concrete inputs: an aware (`Z`-suffixed, rewritten
by the shim to `+00:00`) future expiry makes the quota check unlimited;
a naive future `premium_expiry` with the flag set makes the premium
check true. -/
theorem C4_premium_checks_inequivalent_witness :
    (FUser.get_remaining_free_uses (parseForQuota sampleIsoParse)
        [(12, { plan := "monthly_premium",
                expiry := some "2099-01-01T00:00:00Z" })] 12 1000).2 =
      FUser.Remaining.unlimited ∧
    (Premium.is_user_premium (parseForPremium sampleIsoParse)
        [(13, { is_premium := some true,
                premium_expiry := some "2099-01-01T00:00:00" })] 13 1000).1 =
      true := by
  constructor
  · exact ((C4_premium_checks_inequivalent sampleIsoParse
        [(12, { plan := "monthly_premium",
                expiry := some "2099-01-01T00:00:00Z" })] 12 1000).1
      { plan := "monthly_premium", expiry := some "2099-01-01T00:00:00Z" }
      rfl).mpr
      ⟨by decide, "2099-01-01T00:00:00Z", rfl, by decide,
       { ts := 4070908800, aware := true }, by decide, rfl, by decide⟩
  · exact ((C4_premium_checks_inequivalent sampleIsoParse
        [(13, { is_premium := some true,
                premium_expiry := some "2099-01-01T00:00:00" })] 13 1000).2.1
      { is_premium := some true, premium_expiry := some "2099-01-01T00:00:00" }
      rfl).mpr
      ⟨rfl, "2099-01-01T00:00:00", rfl, by decide,
       { ts := 4070908800, aware := false }, rfl, rfl, by decide⟩

/-- Counterexample to C4 as stated: a stored record whose field schemes
fully agree — `plan = monthly_premium`, `is_premium = true`, the same
naive future string in `expiry` and `premium_expiry` — on which the two
determinations still disagree: `get_remaining_free_uses` hits the
naive-vs-aware `TypeError` and returns 0 (denies entirely, not
unlimited), while `is_user_premium` reports true. -/
theorem C4_counterexample :
    (FUser.get_remaining_free_uses (parseForQuota sampleIsoParse)
        [(11, { plan := "monthly_premium", is_premium := some true,
                free_uses := 0, expiry := some "2099-01-01T00:00:00",
                premium_expiry := some "2099-01-01T00:00:00" })] 11 1000).2 =
      FUser.Remaining.fin 0 ∧
    (Premium.is_user_premium (parseForPremium sampleIsoParse)
        [(11, { plan := "monthly_premium", is_premium := some true,
                free_uses := 0, expiry := some "2099-01-01T00:00:00",
                premium_expiry := some "2099-01-01T00:00:00" })] 11 1000).1 =
      true := by
  exact ⟨by decide, by decide⟩

/-- Claim C5 (amended): for a cipher whose decryption inverts encryption
and authenticates (any string outside the range of `e` fails to
decrypt), a callback token issued at `t0` for `(uid, plan)` decodes to
exactly `(uid, plan)` when decoded at most 86400 seconds later and to
`(none, none)` strictly later, **provided the plan id contains no `':'`
separator** — the payload is colon-delimited, so a plan id containing
`':'` makes the split yield more than 3 fields and decoding fails even
untampered (see the counterexample); and any token that is not a genuine
encryption decodes to `(none, none)`. -/
theorem C5_token_roundtrip (e d : List Char → List Char)
    (henc : ∀ s, s ≠ [] → d (e s) = s) (hne : ∀ s, s ≠ [] → e s ≠ [])
    (hauth : ∀ t, (∀ s, t ≠ e s) → d t = [])
    (uid t0 : Int) (plan : List Char) (hp : ':' ∉ plan) :
    (∀ now, now - t0 ≤ 86400 →
      Security.decode_callback_data d now
        (Security.generate_callback_data e uid plan t0) = (some uid, some plan)) ∧
    (∀ now, now - t0 > 86400 →
      Security.decode_callback_data d now
        (Security.generate_callback_data e uid plan t0) = (none, none)) ∧
    (∀ now t, (∀ s, t ≠ e s) →
      Security.decode_callback_data d now t = (none, none)) := by
  refine ⟨?_, ?_, ?_⟩
  · intro now hw
    rw [Security.decode_generate e d henc hne uid t0 now plan hp,
      if_neg (by omega)]
  · intro now hw
    rw [Security.decode_generate e d henc hne uid t0 now plan hp, if_pos hw]
  · intro now t ht
    refine Security.decode_of_decrypt_nil d now t ?_
    rw [Security.decrypt_data]
    by_cases hnil : t = []
    · rw [if_pos hnil]
    · rw [if_neg hnil]
      exact hauth t ht

/-- Witness for C5 with a concrete marker cipher: a token for
`(42, "y")` decodes back within the window, fails one second past the
window, and a non-ciphertext string fails. -/
theorem C5_token_roundtrip_witness :
    Security.decode_callback_data sampleDec 1000
      (Security.generate_callback_data sampleEnc 42 ['y'] 900) =
      (some 42, some ['y']) ∧
    Security.decode_callback_data sampleDec 87301
      (Security.generate_callback_data sampleEnc 42 ['y'] 900) = (none, none) ∧
    Security.decode_callback_data sampleDec 1000 ['X'] = (none, none) := by
  have henc : ∀ s, s ≠ [] → sampleDec (sampleEnc s) = s := by
    intro s _
    simp [sampleEnc, sampleDec]
  have hne : ∀ s, s ≠ [] → sampleEnc s ≠ [] := by
    intro s _
    simp [sampleEnc]
  have hauth : ∀ t, (∀ s, t ≠ sampleEnc s) → sampleDec t = [] := by
    intro t ht
    cases t with
    | nil => rfl
    | cons c r =>
      by_cases hc : c = 'E'
      · exact absurd (by rw [hc]; rfl) (ht r)
      · simp [sampleDec, hc]
  have h := C5_token_roundtrip sampleEnc sampleDec henc hne hauth 42 900 ['y']
    (by decide)
  exact ⟨h.1 1000 (by decide), h.2.1 87301 (by decide),
    h.2.2 1000 ['X'] (fun s => by simp [sampleEnc])⟩

/-- Counterexample to C5 as stated: for a plan id containing the `':'`
separator the round-trip fails even immediately after issuance with an
untampered token — decoding yields `(none, none)`, not the original
pair. -/
theorem C5_counterexample :
    Security.decode_callback_data sampleDec 1000
      (Security.generate_callback_data sampleEnc 42 ['a', ':', 'b'] 1000) =
      (none, none) ∧
    ((none : Option Int), (none : Option (List Char))) ≠
      (some 42, some ['a', ':', 'b']) := by
  exact ⟨by decide, by decide⟩

/-- Claim C6 (amended): `is_user_premium` returns `(false, none)` for a
never-seen user; and for a stored record **whose `is_premium` flag is
set** (the gating the claim omits — see the counterexample) with a
nonempty stored `premium_expiry`: a future parse gives
`(true, expiry)`, a past-or-present parse gives `(false, expiry)`, and
an unparseable string is treated as free, `(false, none)`. -/
theorem C6_premium_check (parse : String → Option Int) (now : Int) :
    (∀ (s : Store) (uid : Int), FUser.get_user s uid = none →
      Premium.is_user_premium parse s uid now = (false, none)) ∧
    (∀ (s : Store) (uid : Int) (r : UserRecord) (e : String),
      FUser.get_user s uid = some r → r.is_premium.getD false = true →
      r.premium_expiry = some e → e ≠ "" →
      Premium.is_user_premium parse s uid now =
        (match parse e with
         | none => (false, none)
         | some t => if t > now then (true, some t) else (false, some t))) := by
  constructor
  · intro s uid h
    rw [Premium.is_user_premium, h]
  · intro s uid r e hr hflag he hne
    rw [Premium.is_user_premium, hr]
    simp [hflag, he, hne]

/-- Witness for C6 at concrete inputs: a never-seen user is free; a
flagged record with a future expiry is premium; one with a past expiry
is not (but the expiry is still reported). -/
theorem C6_premium_check_witness :
    Premium.is_user_premium sampleParse [] 1 1700000000 = (false, none) ∧
    Premium.is_user_premium sampleParse
        [(2, { is_premium := some true,
               premium_expiry := some "2099-01-01T00:00:00" })] 2 1700000000 =
      (true, some 4070908800) ∧
    Premium.is_user_premium sampleParse
        [(3, { is_premium := some true,
               premium_expiry := some "2020-01-01T00:00:00" })] 3 1700000000 =
      (false, some 1577836800) := by
  refine ⟨(C6_premium_check sampleParse 1700000000).1 [] 1 rfl, ?_, ?_⟩
  · exact ((C6_premium_check sampleParse 1700000000).2
      [(2, { is_premium := some true,
             premium_expiry := some "2099-01-01T00:00:00" })] 2
      { is_premium := some true, premium_expiry := some "2099-01-01T00:00:00" }
      "2099-01-01T00:00:00" rfl rfl rfl (by decide)).trans (by decide)
  · exact ((C6_premium_check sampleParse 1700000000).2
      [(3, { is_premium := some true,
             premium_expiry := some "2020-01-01T00:00:00" })] 3
      { is_premium := some true, premium_expiry := some "2020-01-01T00:00:00" }
      "2020-01-01T00:00:00" rfl rfl rfl (by decide)).trans (by decide)

/-- Counterexample to C6 as stated: a stored record whose expiry is a
parseable future timestamp, yet — because the `is_premium` flag is not
set — the check returns `(false, none)` instead of `(true, expiry)`. -/
theorem C6_counterexample :
    sampleParse "2099-01-01T00:00:00" = some 4070908800 ∧
    (4070908800 : Int) > 1700000000 ∧
    Premium.is_user_premium sampleParse
        [(4, { premium_expiry := some "2099-01-01T00:00:00" })] 4 1700000000 =
      (false, none) := by
  exact ⟨by decide, by decide, by decide⟩

/-- `pyint` on a (cast) nonnegative integer is that integer. -/
theorem pyint_intCast (n : ℤ) (hn : 0 ≤ n) : Plans.pyint ((n : ℚ)) = n := by
  rw [Plans.pyint, if_neg (not_lt.mpr (by exact_mod_cast hn))]
  exact Int.floor_intCast n

/-- A code present in the table: the computed charge is the price minus
the capped percentage discount, converted to paise with `int(· * 100)`. -/
theorem calc_known_code (plan_id code : String) (plan : Plans.PayPlan)
    (disc : Plans.Discount) (hplan : Plans.get_plan_by_id plan_id = some plan)
    (hdisc : (Plans.DISCOUNT_CODES.find? (fun p => p.1 == Plans.pyUpper code)).map
      (fun p => p.2) = some disc) :
    (Plans.calculate_discounted_price plan_id code).is_valid = true ∧
    (Plans.calculate_discounted_price plan_id code).final_price_paise =
      some (Plans.pyint (((plan.price : ℚ) -
        min (((plan.price : ℚ) * (disc.percentage : ℚ)) / 100)
          ((disc.max_discount : ℚ))) * 100)) := by
  have hmin : (if ((plan.price : ℚ) * (disc.percentage : ℚ)) / 100 >
        (disc.max_discount : ℚ) then (disc.max_discount : ℚ)
      else ((plan.price : ℚ) * (disc.percentage : ℚ)) / 100) =
      min (((plan.price : ℚ) * (disc.percentage : ℚ)) / 100)
        ((disc.max_discount : ℚ)) := by
    by_cases h : ((plan.price : ℚ) * (disc.percentage : ℚ)) / 100 >
        (disc.max_discount : ℚ)
    · rw [if_pos h, min_eq_right (le_of_lt h)]
    · rw [if_neg h, min_eq_left (not_lt.mp h)]
  constructor
  · simp [Plans.calculate_discounted_price, hplan, hdisc]
  · simp only [Plans.calculate_discounted_price, hplan, hdisc]
    rw [hmin]

/-- A code absent from the table is silently ignored: the undiscounted
price is charged, both by `calculate_discounted_price` and in the order
amount. -/
theorem calc_unknown_code (plan_id code : String) (plan : Plans.PayPlan)
    (hplan : Plans.get_plan_by_id plan_id = some plan)
    (hdisc : (Plans.DISCOUNT_CODES.find? (fun p => p.1 == Plans.pyUpper code)).map
      (fun p => p.2) = none) :
    (Plans.calculate_discounted_price plan_id code).is_valid = false ∧
    (Plans.calculate_discounted_price plan_id code).final_price_paise =
      some plan.price_in_paise ∧
    Plans.create_order_amount plan_id (some code) = some plan.price_in_paise := by
  refine ⟨?_, ?_, ?_⟩
  · simp [Plans.calculate_discounted_price, hplan, hdisc]
  · simp [Plans.calculate_discounted_price, hplan, hdisc]
  · by_cases hc : code = ""
    · simp [Plans.create_order_amount, hplan, hc]
    · simp [Plans.create_order_amount, hplan, hc,
        Plans.calculate_discounted_price, hdisc]

/-- `WELCOME10` applied to the monthly plan (4900 paise) charges 4410
paise, in the computed result and in the order amount. -/
theorem welcome10_charge :
    (Plans.calculate_discounted_price "monthly_premium" "WELCOME10").final_price_paise =
      some 4410 ∧
    Plans.create_order_amount "monthly_premium" (some "WELCOME10") = some 4410 := by
  have h := calc_known_code "monthly_premium" "WELCOME10"
    { name := "Monthly Premium", duration_days := 30, price := 49,
      price_in_paise := 4900, description := "30 days of unlimited downloads",
      plan_id := "monthly_premium" }
    { percentage := 10, max_discount := 50, valid_until := "2023-12-31",
      description := "10% off for new users" } rfl rfl
  have harg : Plans.pyint ((((49 : ℤ) : ℚ) -
      min ((((49 : ℤ) : ℚ) * (((10 : ℤ)) : ℚ)) / 100) (((50 : ℤ)) : ℚ)) * 100) =
      (4410 : ℤ) := by
    have hq : ((((49 : ℤ) : ℚ) -
        min ((((49 : ℤ) : ℚ) * (((10 : ℤ)) : ℚ)) / 100) (((50 : ℤ)) : ℚ)) * 100) =
        (((4410 : ℤ)) : ℚ) := by
      rw [min_eq_left (by push_cast; norm_num)]
      push_cast
      norm_num
    rw [hq, pyint_intCast 4410 (by norm_num)]
  have hfinal : (Plans.calculate_discounted_price "monthly_premium"
      "WELCOME10").final_price_paise = some 4410 :=
    h.2.trans (congrArg some harg)
  refine ⟨hfinal, ?_⟩
  have hpl : Plans.get_plan_by_id "monthly_premium" =
      some { name := "Monthly Premium", duration_days := 30, price := 49,
             price_in_paise := 4900,
             description := "30 days of unlimited downloads",
             plan_id := "monthly_premium" } := rfl
  rw [Plans.create_order_amount, hpl]
  simp [h.1, hfinal]

/-- Claim C7 (amended): for a catalog plan and a code present in
`DISCOUNT_CODES`, the charge in minor units is
`int((price - min(price * pct / 100, max_discount)) * 100)` — the
percentage and cap are applied in major units (so the stored
`max_discount = 50` INR is the claim's 5000 minor units); a code absent
from the table is silently ignored, charging the undiscounted
`price_in_paise` both in the computed result and in the order amount;
and `WELCOME10` on the 4900-paise monthly plan charges 4410 paise.  The
claim's "or expired" part fails: the stored `valid_until` is never
consulted (see the counterexample). -/
theorem C7_discount_pricing :
    (∀ (plan_id code : String) (plan : Plans.PayPlan) (disc : Plans.Discount),
      Plans.get_plan_by_id plan_id = some plan →
      (Plans.DISCOUNT_CODES.find? (fun p => p.1 == Plans.pyUpper code)).map
        (fun p => p.2) = some disc →
      (Plans.calculate_discounted_price plan_id code).is_valid = true ∧
      (Plans.calculate_discounted_price plan_id code).final_price_paise =
        some (Plans.pyint (((plan.price : ℚ) -
          min (((plan.price : ℚ) * (disc.percentage : ℚ)) / 100)
            ((disc.max_discount : ℚ))) * 100))) ∧
    (∀ (plan_id code : String) (plan : Plans.PayPlan),
      Plans.get_plan_by_id plan_id = some plan →
      (Plans.DISCOUNT_CODES.find? (fun p => p.1 == Plans.pyUpper code)).map
        (fun p => p.2) = none →
      (Plans.calculate_discounted_price plan_id code).is_valid = false ∧
      (Plans.calculate_discounted_price plan_id code).final_price_paise =
        some plan.price_in_paise ∧
      Plans.create_order_amount plan_id (some code) = some plan.price_in_paise) ∧
    ((Plans.calculate_discounted_price "monthly_premium" "WELCOME10").final_price_paise =
        some 4410 ∧
      Plans.create_order_amount "monthly_premium" (some "WELCOME10") = some 4410) :=
  ⟨fun plan_id code plan disc hplan hdisc =>
      calc_known_code plan_id code plan disc hplan hdisc,
   fun plan_id code plan hplan hdisc =>
      calc_unknown_code plan_id code plan hplan hdisc,
   welcome10_charge⟩

/-- Witness for C7 at concrete inputs: `PREMIUM20` on the yearly plan
(499 INR, 20%, cap 100 INR not binding) charges 39920 paise; a bogus
code charges the yearly plan's undiscounted 49900 paise. -/
theorem C7_discount_pricing_witness :
    (Plans.calculate_discounted_price "yearly_premium" "PREMIUM20").is_valid = true ∧
    (Plans.calculate_discounted_price "yearly_premium" "PREMIUM20").final_price_paise =
      some 39920 ∧
    (Plans.calculate_discounted_price "yearly_premium" "BOGUS").final_price_paise =
      some 49900 ∧
    Plans.create_order_amount "yearly_premium" (some "BOGUS") = some 49900 := by
  have h1 := (C7_discount_pricing.1 "yearly_premium" "PREMIUM20"
    { name := "Yearly Premium", duration_days := 365, price := 499,
      price_in_paise := 49900, description := "365 days of unlimited downloads",
      plan_id := "yearly_premium" }
    { percentage := 20, max_discount := 100, valid_until := "2023-12-31",
      description := "20% off for premium plans" } rfl rfl)
  have h2 := (C7_discount_pricing.2.1 "yearly_premium" "BOGUS"
    { name := "Yearly Premium", duration_days := 365, price := 499,
      price_in_paise := 49900, description := "365 days of unlimited downloads",
      plan_id := "yearly_premium" } rfl rfl)
  have harg : Plans.pyint ((((499 : ℤ) : ℚ) -
      min ((((499 : ℤ) : ℚ) * (((20 : ℤ)) : ℚ)) / 100) (((100 : ℤ)) : ℚ)) * 100) =
      (39920 : ℤ) := by
    have hq : ((((499 : ℤ) : ℚ) -
        min ((((499 : ℤ) : ℚ) * (((20 : ℤ)) : ℚ)) / 100) (((100 : ℤ)) : ℚ)) * 100) =
        (((39920 : ℤ)) : ℚ) := by
      rw [min_eq_left (by push_cast; norm_num)]
      push_cast
      norm_num
    rw [hq, pyint_intCast 39920 (by norm_num)]
  exact ⟨h1.1, h1.2.trans (congrArg some harg), h2.2.1, h2.2.2⟩

/-- Counterexample to C7 as stated: `WELCOME10` is expired — its stored
validity ended 2023-12-31 — yet it is not ignored: the charge is the
discounted 4410 paise, not the undiscounted 4900 the claim demands for
an expired code.  (Indeed `calculate_discounted_price` takes no date at
all, so no code is ever treated as expired.) -/
theorem C7_counterexample :
    (Plans.DISCOUNT_CODES.find? (fun p => p.1 == "WELCOME10")).map
      (fun p => p.2.valid_until) = some "2023-12-31" ∧
    (Plans.calculate_discounted_price "monthly_premium" "WELCOME10").is_valid = true ∧
    Plans.create_order_amount "monthly_premium" (some "WELCOME10") = some 4410 ∧
    some (4410 : Int) ≠ some (4900 : Int) :=
  ⟨by decide, by decide, welcome10_charge.2, by decide⟩

/-- `reset_daily_uses` zeroes the counter of every free-plan document in
its output store. -/
theorem reset_zeroes (s : Store) :
    ∀ k r, (k, r) ∈ (FUser.reset_daily_uses s).1 → r.plan = "free" →
      r.free_uses = 0 := by
  intro k r hm hf
  rw [FUser.reset_daily_uses] at hm
  simp only [List.mem_map] at hm
  obtain ⟨p, hp, hpe⟩ := hm
  by_cases hpl : p.2.plan = "free"
  · rw [if_pos hpl] at hpe
    have h2 := congrArg Prod.snd hpe
    simp only at h2
    rw [← h2]
  · rw [if_neg hpl] at hpe
    have h2 := congrArg Prod.snd hpe
    simp only at h2
    rw [← h2] at hf
    exact absurd hf hpl

/-- Running `reset_daily_uses` on an already-reset store changes nothing
and reports the same count. -/
theorem reset_twice (s : Store) :
    FUser.reset_daily_uses (FUser.reset_daily_uses s).1 =
      FUser.reset_daily_uses s := by
  induction s with
  | nil => rfl
  | cons p t ih =>
    obtain ⟨k, r⟩ := p
    have ih1 := congrArg Prod.fst ih
    have ih2 := congrArg Prod.snd ih
    simp only [FUser.reset_daily_uses] at ih1 ih2 ⊢
    by_cases hp : r.plan = "free" <;>
      simp_all [hp]

/-- Claim C8 (amended): after a run of `reset_daily_uses` every
free-plan document has `free_uses = 0` (so a second run — shown equal to
the first, state and count — changes nothing and produces no negative
count and no error); each run reports the number of `plan = 'free'`
documents streamed, **not** the number of counters actually changed, so
the second run reports 0 only when there are no free-plan users (see
the counterexample). -/
theorem C8_reset_idempotent (s : Store) :
    (∀ k r, (k, r) ∈ (FUser.reset_daily_uses s).1 → r.plan = "free" →
      r.free_uses = 0) ∧
    FUser.reset_daily_uses (FUser.reset_daily_uses s).1 =
      FUser.reset_daily_uses s ∧
    (FUser.reset_daily_uses s).2 =
      ((s.filter (fun p => p.2.plan = "free")).length : Int) :=
  ⟨reset_zeroes s, reset_twice s, rfl⟩

/-- Witness for C8 at a concrete two-user store (one free user with 2
uses, one paid user): the reset store's free user is at 0, a second run
is the identity, and the reported count is 1. -/
theorem C8_reset_idempotent_witness :
    ({ free_uses := 0 } : UserRecord).free_uses = 0 ∧
    FUser.reset_daily_uses
        (FUser.reset_daily_uses
          [(1, { free_uses := 2 }), (2, { plan := "paid", free_uses := 5 })]).1 =
      FUser.reset_daily_uses
        [(1, { free_uses := 2 }), (2, { plan := "paid", free_uses := 5 })] ∧
    (FUser.reset_daily_uses
        [(1, { free_uses := 2 }), (2, { plan := "paid", free_uses := 5 })]).2 = 1 :=
  ⟨(C8_reset_idempotent
      [(1, { free_uses := 2 }), (2, { plan := "paid", free_uses := 5 })]).1
      1 { free_uses := 0 } (by decide) rfl,
   (C8_reset_idempotent
      [(1, { free_uses := 2 }), (2, { plan := "paid", free_uses := 5 })]).2.1,
   ((C8_reset_idempotent
      [(1, { free_uses := 2 }), (2, { plan := "paid", free_uses := 5 })]).2.2).trans
     (by decide)⟩

/-- Counterexample to C8 as stated: a store with one free user whose
counter is already 0 — the second run still reports 1 reset, not 0. -/
theorem C8_counterexample :
    (FUser.reset_daily_uses [(1, ({} : UserRecord))]).1 =
      [(1, ({} : UserRecord))] ∧
    (FUser.reset_daily_uses
        (FUser.reset_daily_uses [(1, ({} : UserRecord))]).1).2 = 1 ∧
    (1 : Int) ≠ 0 := by
  exact ⟨by decide, by decide, by decide⟩

/-- Claim C9 (confirmed): verifying the freshly generated signature for
any order/payment always succeeds, and any differing signature string —
in particular one differing in a single character — is rejected.  The
HMAC-SHA256 primitive is an external library function; the property
holds for every function in its place because `verify` recomputes with
the same inputs and compares for equality. -/
theorem C9_signature_verification (hmacHex : String → String → String)
    (secret order_id payment_id : String) :
    Security.verify_payment_signature hmacHex secret order_id payment_id
      (Security.generate_payment_signature hmacHex secret order_id payment_id) =
      true ∧
    (∀ sig : String,
      sig ≠ Security.generate_payment_signature hmacHex secret order_id payment_id →
      Security.verify_payment_signature hmacHex secret order_id payment_id sig =
        false) := by
  constructor
  · simp [Security.verify_payment_signature]
  · intro sig h
    simp only [Security.verify_payment_signature, beq_eq_false_iff_ne, ne_eq]
    exact fun hh => h hh.symm

/-- Witness for C9 at concrete inputs with a concrete keyed-hash
function. -/
theorem C9_signature_verification_witness :
    Security.verify_payment_signature sampleHmac "sec" "ord_1" "pay_1"
      (Security.generate_payment_signature sampleHmac "sec" "ord_1" "pay_1") =
      true ∧
    Security.verify_payment_signature sampleHmac "sec" "ord_1" "pay_1"
      "deadbeef" = false :=
  ⟨(C9_signature_verification sampleHmac "sec" "ord_1" "pay_1").1,
   (C9_signature_verification sampleHmac "sec" "ord_1" "pay_1").2 "deadbeef"
     (by decide)⟩

/-- Claim C10 (amended): for a stored record with `plan ≠ 'free'` whose
`expiry` is a **nonempty** string that `fromisoformat` rejects, the
raised error is caught by the function's `except` and the user gets 0 —
neither unlimited nor the free-tier count.  (A present-but-empty
`expiry` string is also unparseable but is falsy, skips the parse, and
gets the free-tier count — see the counterexample.) -/
theorem C10_unparseable_expiry_denies (parse : String → Option Int) (s : Store)
    (uid now : Int) (r : UserRecord) (e : String)
    (hr : FUser.get_user s uid = some r) (hplan : r.plan ≠ "free")
    (he : r.expiry = some e) (hne : e ≠ "")
    (hbad : parse (FUser.zrep e) = none) :
    FUser.get_remaining_free_uses parse s uid now = (s, FUser.Remaining.fin 0) := by
  rw [FUser.get_remaining_free_uses, hr]
  simp [hplan, he, hne, hbad]

/-- Witness for C10 at a concrete input: a premium-plan record with the
unparseable expiry string `"not-a-date"` is denied entirely. -/
theorem C10_unparseable_expiry_denies_witness :
    FUser.get_remaining_free_uses sampleParse
        [(8, { plan := "monthly_premium", expiry := some "not-a-date",
               free_uses := 1 })] 8 1000 =
      ([(8, { plan := "monthly_premium", expiry := some "not-a-date",
              free_uses := 1 })], FUser.Remaining.fin 0) :=
  C10_unparseable_expiry_denies sampleParse
    [(8, { plan := "monthly_premium", expiry := some "not-a-date",
           free_uses := 1 })] 8 1000
    { plan := "monthly_premium", expiry := some "not-a-date", free_uses := 1 }
    "not-a-date" rfl (by decide) rfl (by decide) (by decide)

/-- Counterexample to C10 as stated: the empty string is a stored
`expiry` that cannot be parsed as an ISO timestamp, yet — being falsy —
it skips the parse and the user gets the free-tier count 3, not 0. -/
theorem C10_counterexample :
    sampleParse (FUser.zrep "") = none ∧
    (FUser.get_remaining_free_uses sampleParse
        [(6, { plan := "monthly_premium", expiry := some "", free_uses := 0 })]
        6 1000).2 = FUser.Remaining.fin 3 ∧
    FUser.Remaining.fin 3 ≠ FUser.Remaining.fin 0 := by
  exact ⟨by decide, by decide, by decide⟩

